import Mathlib

/-!
Shallow embedding of the `office-server` repository scripts:
  * `test_all_features.py` — a smoke test issuing HTTP requests against a
    running Office automation server and printing a pass/fail line per call;
  * `build.py` — a PyInstaller packaging script.

The HTTP world is modelled as an oracle `Nat → TOutcome` answering the n-th
request of a run either with a decoded JSON value or with an exception
message (covering request failures and JSON-decode failures alike).  Script
execution is explicit state passing: a computation maps the oracle and the
current call index to a value, the next index, and the list of observable
events (requests issued, lines printed, sleeps performed).
-/

namespace OfficeServer

/-- JSON values as decoded by `response.json()`.  Every numeric literal in
this repository is integral, so numbers are modelled as integers. -/
inductive Json : Type
  | null : Json
  | bool (b : Bool) : Json
  | num (n : Int) : Json
  | str (s : String) : Json
  | arr (items : List Json) : Json
  | obj (entries : List (String × Json)) : Json

/-- Dictionary lookup, first match wins (decoded JSON objects have unique
keys).  Models Python `dict.get(key)` returning `None` when absent. -/
def getEntry : List (String × Json) → String → Option Json
  | [], _ => none
  | (k, v) :: rest, key => if k == key then some v else getEntry rest key

/-- Models Python `dict.get(key, default)`: the stored value when the key is
present (even when that value is `None`), the default otherwise. -/
def getEntryD (entries : List (String × Json)) (key : String) (dflt : Json) : Json :=
  (getEntry entries key).getD dflt

/-- `result.get(key)` on a value returned by `test_endpoint` (always a
dict); yields `none` on non-objects, where Python would raise. -/
def Json.get : Json → String → Option Json
  | Json.obj entries, key => getEntry entries key
  | _, _ => none

/-- `result.get(key, default)` on a `test_endpoint` return value. -/
def Json.getD (j : Json) (key : String) (dflt : Json) : Json :=
  (Json.get j key).getD dflt

/-- Python truthiness of a decoded JSON value. -/
def pyTruthy : Json → Bool
  | Json.null => false
  | Json.bool b => b
  | Json.num n => n != 0
  | Json.str s => s != ""
  | Json.arr items => !items.isEmpty
  | Json.obj entries => !entries.isEmpty

/-- Python truthiness of a `dict.get` result (`None` is falsy). -/
def pyTruthyO : Option Json → Bool
  | none => false
  | some v => pyTruthy v

/-- Python `==` between a `dict.get` result and a Python `bool`.  In Python
`True == 1` and `False == 0` hold; `None`, strings, lists and dicts never
equal a bool. -/
def pyEqBool : Option Json → Bool → Bool
  | some (Json.bool b), e => b == e
  | some (Json.num n), e => n == (if e then (1 : Int) else 0)
  | _, _ => false

/-- Outcome the environment assigns to one HTTP call: a decoded JSON body,
or an exception message (connection error, timeout, or JSON-decode error). -/
inductive TOutcome : Type
  | ok (response : Json) : TOutcome
  | exn (msg : String) : TOutcome

/-- Requests and sleeps, the externally visible call items of a run. -/
inductive CallItem : Type
  | req (method endpoint : String) (data : Option Json) : CallItem
  | sleep (seconds : Nat) : CallItem

/-- Observable events of a script run.  Prints that interpolate a computed
value are kept structured: `status` is the `[OK]`/`[FAIL]` line, `errStatus`
the `[ERROR]` line, `diag` the indented `Error:` line carrying the JSON
value it formats, `detail` any other print interpolating a value, `info` a
print of a fixed string. -/
inductive Event : Type
  | req (method endpoint : String) (data : Option Json) : Event
  | status (tag method endpoint : String) : Event
  | errStatus (method endpoint msg : String) : Event
  | diag (v : Json) : Event
  | detail (tag : String) (v : Option Json) : Event
  | info (line : String) : Event
  | sleep (seconds : Nat) : Event

/-- Script computations: oracle and call index in, value, next index and
emitted events out. -/
def M (α : Type) : Type :=
  (Nat → TOutcome) → Nat → α × Nat × List Event

def M.pure {α : Type} (a : α) : M α := fun _ i => (a, i, [])

def M.bind {α β : Type} (x : M α) (f : α → M β) : M β := fun w i =>
  ((f (x w i).1 w (x w i).2.1).1,
   (f (x w i).1 w (x w i).2.1).2.1,
   (x w i).2.2 ++ (f (x w i).1 w (x w i).2.1).2.2)

instance : Monad M where
  pure := M.pure
  bind := M.bind

/-- Emit one event. -/
def emit (e : Event) : M Unit := fun _ i => ((), i, [e])

/-- `print` of a fixed string. -/
def info (s : String) : M Unit := emit (Event.info s)

/-- `time.sleep(n)`. -/
def sleep (n : Nat) : M Unit := emit (Event.sleep n)

/-- Value of `runV`, next index of `runI`, events of `runE` of a run. -/
def runV {α : Type} (x : M α) (w : Nat → TOutcome) (i : Nat) : α := (x w i).1

def runI {α : Type} (x : M α) (w : Nat → TOutcome) (i : Nat) : Nat := (x w i).2.1

def runE {α : Type} (x : M α) (w : Nat → TOutcome) (i : Nat) : List Event := (x w i).2.2

/-- The dict `{"success": False, "error": str(e)}` returned by
`test_endpoint`'s `except` branch. -/
def errDict (msg : String) : Json :=
  Json.obj [("success", Json.bool false), ("error", Json.str msg)]

/-- Python type name of a decoded JSON value, as it appears in the
`AttributeError` raised by `result.get` on a non-dict. -/
def pyTypeName : Json → String
  | Json.null => "NoneType"
  | Json.bool _ => "bool"
  | Json.num _ => "int"
  | Json.str _ => "str"
  | Json.arr _ => "list"
  | Json.obj _ => "dict"

/-- Message of the `AttributeError` raised by `result.get` when
`response.json()` decoded to a non-dict (text approximates CPython's
rendering; its exact wording is not load-bearing). -/
def attrErr (j : Json) : String :=
  pyTypeName j ++ " object has no attribute get"

/-- One call of `test_endpoint`, as a pure function of the outcome the
environment assigns to it: the returned dict and the emitted events.
Mirrors the source: one `requests.get` when `method == "GET"`, otherwise
one `requests.post(url, json=data)`; then `response.json()`; on a dict
result the `[OK]`/`[FAIL]` line keyed on `result.get("success") ==
expected_success`, plus the `Error:` diagnostic when `not
result.get("success") and expected_success`; any exception (including the
`AttributeError` from `.get` on a non-dict) is caught, an `[ERROR]` line is
printed and `{"success": False, "error": str(e)}` is returned. -/
def teStep (method endpoint : String) (data : Option Json) (expected_success : Bool)
    (out : TOutcome) : Json × List Event :=
  let httpReq : Event :=
    if method == "GET" then Event.req "GET" endpoint none
    else Event.req "POST" endpoint data
  match out with
  | TOutcome.ok (Json.obj entries) =>
    let success := getEntry entries "success"
    let status : String := if pyEqBool success expected_success then "OK" else "FAIL"
    let diag : List Event :=
      if !pyTruthyO success && expected_success then
        [Event.diag (getEntryD entries "error" (getEntryD entries "message" (Json.str "Unknown")))]
      else []
    (Json.obj entries, httpReq :: Event.status status method endpoint :: diag)
  | TOutcome.ok other =>
    (errDict (attrErr other), [httpReq, Event.errStatus method endpoint (attrErr other)])
  | TOutcome.exn e =>
    (errDict e, [httpReq, Event.errStatus method endpoint e])

/-- `test_endpoint(method, endpoint, data, expected_success)`: consumes the
next oracle outcome and behaves as `teStep` on it. -/
def test_endpoint (method endpoint : String) (data : Option Json)
    (expected_success : Bool) : M Json :=
  fun w i =>
    ((teStep method endpoint data expected_success (w i)).1,
     i + 1,
     (teStep method endpoint data expected_success (w i)).2)

/-- The 50-character `"=" * 50` banner. -/
def banner50 : String := String.mk (List.replicate 50 (Char.ofNat 61))

/-- The 60-character `"=" * 60` banner. -/
def banner60 : String := String.mk (List.replicate 60 (Char.ofNat 61))

/-- `test_health()`. -/
def test_health : M Json := do
  info "\n=== Health Check ==="
  test_endpoint "GET" "/health" none true

/-- `test_word_features()`: the Word section of the smoke test, transcribed
call for call. -/
def test_word_features : M Unit := do
  info ("\n" ++ banner50)
  info "=== Microsoft Word Tests ==="
  info banner50
  info "\n--- Basic Operations ---"
  _ ← test_endpoint "POST" "/word/launch" none true
  sleep 1
  _ ← test_endpoint "POST" "/word/create" none true
  info "\n--- Write and Read ---"
  _ ← test_endpoint "POST" "/word/write"
      (some (Json.obj [("text", Json.str "Hello World! This is a test document.\n\n")])) true
  _ ← test_endpoint "GET" "/word/read" none true
  info "\n--- Font Settings ---"
  _ ← test_endpoint "POST" "/word/write"
      (some (Json.obj [("text", Json.str "Bold and Red Text\n")])) true
  _ ← test_endpoint "POST" "/word/set_font"
      (some (Json.obj [("font_name", Json.str "Arial"), ("font_size", Json.num 16),
        ("bold", Json.bool true), ("color", Json.str "#FF0000")])) true
  info "\n--- Paragraph Formatting ---"
  _ ← test_endpoint "POST" "/word/write"
      (some (Json.obj [("text", Json.str "\nCentered paragraph with double spacing.\n")])) true
  _ ← test_endpoint "POST" "/word/set_paragraph"
      (some (Json.obj [("alignment", Json.str "center"), ("line_spacing", Json.num 2)])) true
  info "\n--- Hyperlink ---"
  _ ← test_endpoint "POST" "/word/add_hyperlink"
      (some (Json.obj [("url", Json.str "https://www.google.com"),
        ("display_text", Json.str "Visit Google"),
        ("tooltip", Json.str "Click to visit Google")])) true
  info "\n--- Insert Break ---"
  _ ← test_endpoint "POST" "/word/insert_break"
      (some (Json.obj [("type", Json.str "line")])) true
  _ ← test_endpoint "POST" "/word/write"
      (some (Json.obj [("text", Json.str "\nAfter line break.\n")])) true
  info "\n--- Table ---"
  _ ← test_endpoint "POST" "/word/add_table"
      (some (Json.obj [("rows", Json.num 3), ("cols", Json.num 3),
        ("values", Json.arr
          [Json.arr [Json.str "Name", Json.str "Age", Json.str "City"],
           Json.arr [Json.str "Alice", Json.str "25", Json.str "Seoul"],
           Json.arr [Json.str "Bob", Json.str "30", Json.str "Busan"]])])) true
  info "\n--- Find and Replace ---"
  _ ← test_endpoint "POST" "/word/find_replace"
      (some (Json.obj [("find", Json.str "Hello"), ("replace", Json.str "Hi"),
        ("replace_all", Json.bool true)])) true
  info "\n--- Style ---"
  _ ← test_endpoint "POST" "/word/write"
      (some (Json.obj [("text", Json.str "\n\nThis should be a heading\n")])) true
  _ ← test_endpoint "POST" "/word/set_style"
      (some (Json.obj [("style", Json.str "Heading 1")])) true
  info "\n--- Selection ---"
  _ ← test_endpoint "POST" "/word/select_all" none true
  _ ← test_endpoint "GET" "/word/get_selection" none true
  info "\n--- Screenshot ---"
  let result ← test_endpoint "GET" "/word/screenshot" none true
  if pyTruthyO (Json.get result "success") && pyTruthyO (Json.get result "image") then
    emit (Event.detail "Screenshot captured, base64 byte length of" (Json.get result "image"))
  info "\n--- Close ---"
  _ ← test_endpoint "POST" "/word/close"
      (some (Json.obj [("save", Json.bool false)])) true
  info "\n[Word Tests Complete]"

/-- `test_excel_features()`: the Excel section of the smoke test,
transcribed call for call. -/
def test_excel_features : M Unit := do
  info ("\n" ++ banner50)
  info "=== Microsoft Excel Tests ==="
  info banner50
  info "\n--- Basic Operations ---"
  _ ← test_endpoint "POST" "/excel/launch" none true
  sleep 1
  _ ← test_endpoint "POST" "/excel/create" none true
  info "\n--- Write/Read Cell ---"
  _ ← test_endpoint "POST" "/excel/write_cell"
      (some (Json.obj [("cell", Json.str "A1"), ("value", Json.str "Product")])) true
  _ ← test_endpoint "POST" "/excel/write_cell"
      (some (Json.obj [("cell", Json.str "B1"), ("value", Json.str "Price")])) true
  _ ← test_endpoint "POST" "/excel/write_cell"
      (some (Json.obj [("cell", Json.str "C1"), ("value", Json.str "Quantity")])) true
  _ ← test_endpoint "POST" "/excel/read_cell"
      (some (Json.obj [("cell", Json.str "A1")])) true
  info "\n--- Write/Read Range ---"
  _ ← test_endpoint "POST" "/excel/write_range"
      (some (Json.obj [("start_cell", Json.str "A2"),
        ("values", Json.arr
          [Json.arr [Json.str "Apple", Json.num 100, Json.num 10],
           Json.arr [Json.str "Banana", Json.num 50, Json.num 20],
           Json.arr [Json.str "Orange", Json.num 75, Json.num 15]])])) true
  let result ← test_endpoint "POST" "/excel/read_range"
      (some (Json.obj [("range", Json.str "A1:C4")])) true
  if pyTruthyO (Json.get result "success") then
    emit (Event.detail "Values" (Json.get result "values"))
  info "\n--- Formula ---"
  _ ← test_endpoint "POST" "/excel/write_cell"
      (some (Json.obj [("cell", Json.str "D1"), ("value", Json.str "Total")])) true
  _ ← test_endpoint "POST" "/excel/set_formula"
      (some (Json.obj [("cell", Json.str "D2"), ("formula", Json.str "=B2*C2")])) true
  _ ← test_endpoint "POST" "/excel/set_formula"
      (some (Json.obj [("cell", Json.str "D3"), ("formula", Json.str "=B3*C3")])) true
  _ ← test_endpoint "POST" "/excel/set_formula"
      (some (Json.obj [("cell", Json.str "D4"), ("formula", Json.str "=B4*C4")])) true
  _ ← test_endpoint "POST" "/excel/set_formula"
      (some (Json.obj [("cell", Json.str "D5"), ("formula", Json.str "=SUM(D2:D4)")])) true
  _ ← test_endpoint "POST" "/excel/read_cell"
      (some (Json.obj [("cell", Json.str "D5")])) true
  info "\n--- Font Settings ---"
  _ ← test_endpoint "POST" "/excel/set_font"
      (some (Json.obj [("range", Json.str "A1:D1"), ("font_name", Json.str "Arial"),
        ("font_size", Json.num 14), ("bold", Json.bool true),
        ("color", Json.str "#0000FF")])) true
  info "\n--- Alignment ---"
  _ ← test_endpoint "POST" "/excel/set_alignment"
      (some (Json.obj [("range", Json.str "A1:D1"), ("horizontal", Json.str "center"),
        ("vertical", Json.str "center")])) true
  info "\n--- Column Width ---"
  _ ← test_endpoint "POST" "/excel/set_column_width"
      (some (Json.obj [("column", Json.str "A"), ("auto_fit", Json.bool true)])) true
  _ ← test_endpoint "POST" "/excel/set_column_width"
      (some (Json.obj [("column", Json.str "B"), ("width", Json.num 15)])) true
  info "\n--- Row Height ---"
  _ ← test_endpoint "POST" "/excel/set_row_height"
      (some (Json.obj [("row", Json.num 1), ("height", Json.num 25)])) true
  info "\n--- Fill Color ---"
  _ ← test_endpoint "POST" "/excel/set_fill"
      (some (Json.obj [("range", Json.str "A1:D1"), ("color", Json.str "#FFFF00")])) true
  info "\n--- Border ---"
  _ ← test_endpoint "POST" "/excel/set_border"
      (some (Json.obj [("range", Json.str "A1:D5"), ("style", Json.str "thin"),
        ("edges", Json.str "all")])) true
  info "\n--- Number Format ---"
  _ ← test_endpoint "POST" "/excel/set_number_format"
      (some (Json.obj [("range", Json.str "B2:B4"), ("format", Json.str "#,##0")])) true
  _ ← test_endpoint "POST" "/excel/set_number_format"
      (some (Json.obj [("range", Json.str "D2:D5"), ("format", Json.str "#,##0")])) true
  info "\n--- Merge Cells ---"
  _ ← test_endpoint "POST" "/excel/write_cell"
      (some (Json.obj [("cell", Json.str "A7"), ("value", Json.str "Merged Header")])) true
  _ ← test_endpoint "POST" "/excel/merge_cells"
      (some (Json.obj [("range", Json.str "A7:D7")])) true
  info "\n--- Sheet Operations ---"
  _ ← test_endpoint "GET" "/excel/get_sheets" none true
  _ ← test_endpoint "POST" "/excel/add_sheet"
      (some (Json.obj [("name", Json.str "TestSheet")])) true
  _ ← test_endpoint "POST" "/excel/rename_sheet"
      (some (Json.obj [("old_name", Json.str "TestSheet"),
        ("new_name", Json.str "RenamedSheet")])) true
  _ ← test_endpoint "GET" "/excel/get_sheets" none true
  _ ← test_endpoint "POST" "/excel/delete_sheet"
      (some (Json.obj [("name", Json.str "RenamedSheet")])) true
  info "\n--- Insert/Delete Row/Column ---"
  _ ← test_endpoint "POST" "/excel/insert_row"
      (some (Json.obj [("row", Json.num 2), ("count", Json.num 1)])) true
  _ ← test_endpoint "POST" "/excel/insert_column"
      (some (Json.obj [("column", Json.str "A"), ("count", Json.num 1)])) true
  _ ← test_endpoint "POST" "/excel/delete_row"
      (some (Json.obj [("row", Json.num 2), ("count", Json.num 1)])) true
  _ ← test_endpoint "POST" "/excel/delete_column"
      (some (Json.obj [("column", Json.str "A"), ("count", Json.num 1)])) true
  info "\n--- Auto Filter ---"
  _ ← test_endpoint "POST" "/excel/auto_filter"
      (some (Json.obj [("range", Json.str "A1:D5")])) true
  _ ← test_endpoint "POST" "/excel/auto_filter"
      (some (Json.obj [("remove", Json.bool true)])) true
  info "\n--- Freeze Panes ---"
  _ ← test_endpoint "POST" "/excel/freeze_panes"
      (some (Json.obj [("cell", Json.str "A2")])) true
  _ ← test_endpoint "POST" "/excel/freeze_panes"
      (some (Json.obj [("unfreeze", Json.bool true)])) true
  info "\n--- Screenshot ---"
  let shot ← test_endpoint "GET" "/excel/screenshot" none true
  if pyTruthyO (Json.get shot "success") && pyTruthyO (Json.get shot "image") then
    emit (Event.detail "Screenshot captured, base64 byte length of" (Json.get shot "image"))
  info "\n--- Close ---"
  _ ← test_endpoint "POST" "/excel/close"
      (some (Json.obj [("save", Json.bool false)])) true
  info "\n[Excel Tests Complete]"

/-- `test_powerpoint_features()`: the PowerPoint section of the smoke test,
transcribed call for call. -/
def test_powerpoint_features : M Unit := do
  info ("\n" ++ banner50)
  info "=== Microsoft PowerPoint Tests ==="
  info banner50
  info "\n--- Basic Operations ---"
  _ ← test_endpoint "POST" "/powerpoint/launch" none true
  sleep 1
  _ ← test_endpoint "POST" "/powerpoint/create" none true
  info "\n--- Add Slides ---"
  _ ← test_endpoint "POST" "/powerpoint/add_slide"
      (some (Json.obj [("layout", Json.num 1)])) true
  _ ← test_endpoint "POST" "/powerpoint/add_slide"
      (some (Json.obj [("layout", Json.num 2)])) true
  _ ← test_endpoint "GET" "/powerpoint/get_slide_count" none true
  info "\n--- Write Text ---"
  _ ← test_endpoint "POST" "/powerpoint/write_text"
      (some (Json.obj [("slide", Json.num 1), ("shape", Json.num 1),
        ("text", Json.str "Presentation Title")])) true
  _ ← test_endpoint "POST" "/powerpoint/write_text"
      (some (Json.obj [("slide", Json.num 1), ("shape", Json.num 2),
        ("text", Json.str "Subtitle goes here")])) true
  info "\n--- Add Textbox ---"
  _ ← test_endpoint "POST" "/powerpoint/add_textbox"
      (some (Json.obj [("slide", Json.num 2), ("text", Json.str "Custom textbox content"),
        ("left", Json.num 100), ("top", Json.num 300), ("width", Json.num 400),
        ("height", Json.num 50)])) true
  info "\n--- Set Font ---"
  _ ← test_endpoint "POST" "/powerpoint/set_font"
      (some (Json.obj [("slide", Json.num 1), ("shape", Json.num 1),
        ("font_name", Json.str "Arial"), ("font_size", Json.num 44),
        ("bold", Json.bool true), ("color", Json.str "#0066CC")])) true
  info "\n--- Read Slide ---"
  let result ← test_endpoint "POST" "/powerpoint/read_slide"
      (some (Json.obj [("slide", Json.num 1)])) true
  if pyTruthyO (Json.get result "success") then
    emit (Event.detail "Shapes, count of" (some (Json.getD result "shapes" (Json.arr []))))
  info "\n--- Set Background ---"
  _ ← test_endpoint "POST" "/powerpoint/set_background"
      (some (Json.obj [("slide", Json.num 2), ("color", Json.str "#E0E0E0")])) true
  info "\n--- Add Animation ---"
  _ ← test_endpoint "POST" "/powerpoint/add_animation"
      (some (Json.obj [("slide", Json.num 1), ("shape", Json.num 1),
        ("effect", Json.str "fade"), ("trigger", Json.str "on_click")])) true
  info "\n--- Screenshot ---"
  let shot ← test_endpoint "GET" "/powerpoint/screenshot" none true
  if pyTruthyO (Json.get shot "success") && pyTruthyO (Json.get shot "image") then
    emit (Event.detail "Screenshot captured, base64 byte length of" (Json.get shot "image"))
  info "\n--- Close ---"
  _ ← test_endpoint "POST" "/powerpoint/close"
      (some (Json.obj [("save", Json.bool false)])) true
  info "\n[PowerPoint Tests Complete]"

/-- `main()` of the smoke test.  The `KeyboardInterrupt` handler is not
modelled (no asynchronous interrupts in the embedding); the early `return`
on a failed health check becomes the then-branch below. -/
def main : M Unit := do
  info banner60
  info "Office Automation Server - Comprehensive Feature Test"
  info banner60
  let health ← test_health
  if !pyTruthyO (Json.get health "success") then
    info "\n[ERROR] Server not running! Please start the server first."
  else
    emit (Event.detail "Server Status" (Json.get health "status"))
    emit (Event.detail "Version" (Json.get health "version"))
    test_word_features
    sleep 1
    test_excel_features
    sleep 1
    test_powerpoint_features
    info ("\n" ++ banner60)
    info "All tests completed!"
    info banner60

/-- Observable events of a `build.py` run: the pip subprocess, directory
removals, the PyInstaller subprocess (with its full argv), plain prints,
and the size print (whose source formats `size_bytes / 2^20` to one decimal
place; the float formatting itself is kept structured). -/
inductive BEvent : Type
  | runPip (args : List String) : BEvent
  | rmtree (folder : String) : BEvent
  | runPyInstaller (args : List String) : BEvent
  | print (line : String) : BEvent
  | printSizeMB (sizeBytes : Nat) : BEvent
deriving DecidableEq

/-- How a `build.py` run terminates: `sys.exit(code)`, an uncaught
exception, or falling off the end of `main` (process exit 0). -/
inductive BResult : Type
  | exit (code : Nat) : BResult
  | raised (msg : String) : BResult
  | done : BResult
deriving DecidableEq

/-- Environment of a `build.py` run: platform and interpreter identity,
whether each external step succeeds, and the filesystem facts the script
inspects. -/
structure BuildWorld : Type where
  platform : String
  pyExe : String
  pyVersion : String
  pipOk : Bool
  pywin32Ok : Bool
  pywin32Err : String
  buildExists : Bool
  distExists : Bool
  pyinstallerCode : Int
  exeExists : Bool
  exeSize : Nat

/-- The fixed PyInstaller argv of `build.py` (after `sys.executable`). -/
def pyinstallerArgs (pyExe : String) : List String :=
  [pyExe, "-m", "PyInstaller",
   "--onefile",
   "--console",
   "--name", "office-server",
   "--hidden-import", "win32com",
   "--hidden-import", "win32com.client",
   "--hidden-import", "win32gui",
   "--hidden-import", "win32ui",
   "--hidden-import", "win32con",
   "--hidden-import", "win32api",
   "--hidden-import", "pythoncom",
   "--hidden-import", "pywintypes",
   "--hidden-import", "flask",
   "--hidden-import", "flask_cors",
   "--hidden-import", "PIL",
   "--hidden-import", "PIL.Image",
   "server.py"]

/-- Path of the build output checked by `build.py` (`os.path.join` with the
Windows separator). -/
def exePath : String := "dist\\office-server.exe"

/-- `main()` of `build.py`, transcribed step for step.  The pip install
runs with `check=True`, so its failure raises `CalledProcessError`
uncaught; the import check of pywin32 and the platform check call
`sys.exit(1)`; so do a failing PyInstaller exit code and a missing output
file. -/
def build_main (w : BuildWorld) : BResult × List BEvent :=
  let evs : List BEvent :=
    [BEvent.print banner60,
     BEvent.print "Office Server Build Script",
     BEvent.print banner60]
  if w.platform != "win32" then
    (BResult.exit 1, evs ++ [BEvent.print "ERROR: This script must be run on Windows"])
  else
    let evs := evs ++
      [BEvent.print ("Python version: " ++ w.pyVersion),
       BEvent.print "\n[1/4] Installing dependencies...",
       BEvent.runPip [w.pyExe, "-m", "pip", "install", "-r", "requirements.txt"]]
    if !w.pipOk then
      (BResult.raised "subprocess.CalledProcessError", evs)
    else
      let evs := evs ++ [BEvent.print "\n[2/4] Verifying pywin32..."]
      if !w.pywin32Ok then
        (BResult.exit 1, evs ++
          [BEvent.print ("ERROR: pywin32 not properly installed: " ++ w.pywin32Err),
           BEvent.print "Try running: python -m pip install pywin32",
           BEvent.print "Then run: python Scripts/pywin32_postinstall.py -install"])
      else
        let evs := evs ++
          [BEvent.print "  pywin32 OK",
           BEvent.print "\n[3/4] Cleaning previous builds..."]
        let evs := evs ++
          (if w.buildExists then [BEvent.rmtree "build", BEvent.print "  Removed build/"] else [])
        let evs := evs ++
          (if w.distExists then [BEvent.rmtree "dist", BEvent.print "  Removed dist/"] else [])
        let evs := evs ++
          [BEvent.print "\n[4/4] Building with PyInstaller...",
           BEvent.runPyInstaller (pyinstallerArgs w.pyExe)]
        if w.pyinstallerCode != 0 then
          (BResult.exit 1, evs ++ [BEvent.print "\nERROR: PyInstaller build failed"])
        else
          if w.exeExists then
            (BResult.done, evs ++
              [BEvent.print ("\n" ++ banner60),
               BEvent.print "BUILD SUCCESSFUL!",
               BEvent.print banner60,
               BEvent.print ("Output: " ++ exePath),
               BEvent.printSizeMB w.exeSize,
               BEvent.print "\nTo test:",
               BEvent.print ("  " ++ exePath ++ " --port 8765"),
               BEvent.print "\nTo copy to bin folder:",
               BEvent.print ("  copy " ++ exePath ++ " ..\\bin\\")])
          else
            (BResult.exit 1, evs ++ [BEvent.print "\nERROR: Output file not found"])

/-- Is this build event the PyInstaller subprocess? -/
def BEvent.isPyInstaller : BEvent → Bool
  | BEvent.runPyInstaller _ => true
  | _ => false

/-- Argv of a PyInstaller subprocess event. -/
def BEvent.pyArgs : BEvent → Option (List String)
  | BEvent.runPyInstaller args => some args
  | _ => none

/-- Is this build event state-changing (a subprocess or a removal), as
opposed to a print? -/
def BEvent.isSideEffect : BEvent → Bool
  | BEvent.runPip _ => true
  | BEvent.rmtree _ => true
  | BEvent.runPyInstaller _ => true
  | _ => false

/-- View of an event as an externally visible call item (an HTTP request or
a sleep); prints are dropped. -/
def Event.toCall : Event → Option CallItem
  | Event.req m ep d => some (CallItem.req m ep d)
  | Event.sleep n => some (CallItem.sleep n)
  | _ => none

/-- The requests and sleeps of a run, in order. -/
def callsR {α : Type} (x : M α) (w : Nat → TOutcome) (i : Nat) : List CallItem :=
  (runE x w i).filterMap Event.toCall

/-- Is this event a status line, i.e. a line tagged `[OK]`, `[FAIL]` or
`[ERROR]`? -/
def Event.isStatusLine : Event → Bool
  | Event.status _ _ _ => true
  | Event.errStatus _ _ _ => true
  | _ => false

/-- Tag of a status line (`"OK"`, `"FAIL"` or `"ERROR"`), `none` for other
events. -/
def Event.statusTag : Event → Option String
  | Event.status tag _ _ => some tag
  | Event.errStatus _ _ _ => some "ERROR"
  | _ => none

/-- The status-line tags of an event list, in order. -/
def statusTagsOf (es : List Event) : List String := es.filterMap Event.statusTag

/-- The JSON value carried by a diagnostic `Error:` line, `none` for other
events. -/
def Event.diagVal : Event → Option Json
  | Event.diag v => some v
  | _ => none

/-- The diagnostic values of an event list, in order. -/
def diagsOf (es : List Event) : List Json := es.filterMap Event.diagVal

theorem runV_bind {α β : Type} (x : M α) (f : α → M β) (w : Nat → TOutcome) (i : Nat) :
    runV (x >>= f) w i = runV (f (runV x w i)) w (runI x w i) := rfl

theorem runI_bind {α β : Type} (x : M α) (f : α → M β) (w : Nat → TOutcome) (i : Nat) :
    runI (x >>= f) w i = runI (f (runV x w i)) w (runI x w i) := rfl

theorem runE_bind {α β : Type} (x : M α) (f : α → M β) (w : Nat → TOutcome) (i : Nat) :
    runE (x >>= f) w i = runE x w i ++ runE (f (runV x w i)) w (runI x w i) := rfl

theorem runV_emit (e : Event) (w : Nat → TOutcome) (i : Nat) : runV (emit e) w i = () := rfl

theorem runI_emit (e : Event) (w : Nat → TOutcome) (i : Nat) : runI (emit e) w i = i := rfl

theorem runE_emit (e : Event) (w : Nat → TOutcome) (i : Nat) : runE (emit e) w i = [e] := rfl

theorem runV_test_endpoint (m ep : String) (d : Option Json) (ex : Bool)
    (w : Nat → TOutcome) (i : Nat) :
    runV (test_endpoint m ep d ex) w i = (teStep m ep d ex (w i)).1 := rfl

theorem runI_test_endpoint (m ep : String) (d : Option Json) (ex : Bool)
    (w : Nat → TOutcome) (i : Nat) :
    runI (test_endpoint m ep d ex) w i = i + 1 := rfl

theorem runE_test_endpoint (m ep : String) (d : Option Json) (ex : Bool)
    (w : Nat → TOutcome) (i : Nat) :
    runE (test_endpoint m ep d ex) w i = (teStep m ep d ex (w i)).2 := rfl

theorem callsR_bind {α β : Type} (x : M α) (f : α → M β) (w : Nat → TOutcome) (i : Nat) :
    callsR (x >>= f) w i = callsR x w i ++ callsR (f (runV x w i)) w (runI x w i) := by
  simp [callsR, runE_bind, List.filterMap_append]

theorem callsR_emit (e : Event) (w : Nat → TOutcome) (i : Nat) :
    callsR (emit e) w i = (Event.toCall e).toList := by
  cases h : Event.toCall e <;> simp [callsR, runE, emit, h]

theorem callsR_pure {α : Type} (a : α) (w : Nat → TOutcome) (i : Nat) :
    callsR (pure a : M α) w i = [] := rfl

theorem callsR_ite {α : Type} (c : Prop) [Decidable c] (x y : M α)
    (w : Nat → TOutcome) (i : Nat) :
    callsR (if c then x else y) w i = if c then callsR x w i else callsR y w i := by
  by_cases h : c <;> simp [h]

theorem calls_teStep (m ep : String) (d : Option Json) (ex : Bool) (out : TOutcome) :
    (teStep m ep d ex out).2.filterMap Event.toCall =
      [if m == "GET" then CallItem.req "GET" ep none else CallItem.req "POST" ep d] := by
  rcases out with j | e
  · cases j <;> by_cases hm : (m == "GET") = true <;>
      simp [teStep, hm, Event.toCall, apply_ite (List.filterMap Event.toCall)]
  · by_cases hm : (m == "GET") = true <;> simp [teStep, hm, Event.toCall]

theorem callsR_te_get (ep : String) (d : Option Json) (ex : Bool)
    (w : Nat → TOutcome) (i : Nat) :
    callsR (test_endpoint "GET" ep d ex) w i = [CallItem.req "GET" ep none] := by
  have h := calls_teStep "GET" ep d ex (w i)
  simpa [callsR, runE_test_endpoint] using h

theorem callsR_te_post (ep : String) (d : Option Json) (ex : Bool)
    (w : Nat → TOutcome) (i : Nat) :
    callsR (test_endpoint "POST" ep d ex) w i = [CallItem.req "POST" ep d] := by
  have h := calls_teStep "POST" ep d ex (w i)
  simpa [callsR, runE_test_endpoint] using h

/-- C1: the pass/fail label of a `test_endpoint` call on a decoded JSON
object depends only on the object's `success` field and `expected_success`:
any two object responses agreeing on their `success` field receive the same
status line, and the label is `OK` exactly when Python's
`result.get("success") == expected_success` holds, `FAIL` otherwise.  No
other field influences the label, and the embedding is a total function,
matching the script's absence of assertions. -/
theorem label_depends_only_on_success
    (m ep : String) (d : Option Json) (ex : Bool)
    (w₁ w₂ : Nat → TOutcome) (i₁ i₂ : Nat)
    (es₁ es₂ : List (String × Json))
    (h₁ : w₁ i₁ = TOutcome.ok (Json.obj es₁))
    (h₂ : w₂ i₂ = TOutcome.ok (Json.obj es₂))
    (hs : getEntry es₁ "success" = getEntry es₂ "success") :
    statusTagsOf (runE (test_endpoint m ep d ex) w₁ i₁) =
      statusTagsOf (runE (test_endpoint m ep d ex) w₂ i₂)
    ∧ (statusTagsOf (runE (test_endpoint m ep d ex) w₁ i₁) = ["OK"] ↔
        pyEqBool (getEntry es₁ "success") ex = true) := by
  have e₁ : runE (test_endpoint m ep d ex) w₁ i₁ =
      (teStep m ep d ex (TOutcome.ok (Json.obj es₁))).2 := by
    rw [runE_test_endpoint, h₁]
  have e₂ : runE (test_endpoint m ep d ex) w₂ i₂ =
      (teStep m ep d ex (TOutcome.ok (Json.obj es₂))).2 := by
    rw [runE_test_endpoint, h₂]
  rw [e₁, e₂]
  constructor
  · by_cases hm : m = "GET" <;>
      simp [teStep, statusTagsOf, Event.statusTag, List.filterMap_cons, hm,
        apply_ite (List.filterMap Event.statusTag), ite_self, hs]
  · by_cases hm : m = "GET" <;>
      by_cases hc : pyEqBool (getEntry es₁ "success") ex = true <;>
      simp [teStep, statusTagsOf, Event.statusTag, List.filterMap_cons, hm,
        apply_ite (List.filterMap Event.statusTag), ite_self, hc]

theorem label_depends_only_on_success_witness :
    statusTagsOf (runE (test_endpoint "GET" "/health" none true)
        (fun _ => TOutcome.ok (Json.obj [("success", Json.bool true)])) 0) =
      statusTagsOf (runE (test_endpoint "GET" "/health" none true)
        (fun _ => TOutcome.ok (Json.obj
          [("success", Json.bool true), ("status", Json.str "running")])) 0)
    ∧ (statusTagsOf (runE (test_endpoint "GET" "/health" none true)
        (fun _ => TOutcome.ok (Json.obj [("success", Json.bool true)])) 0) = ["OK"] ↔
        pyEqBool (getEntry [("success", Json.bool true)] "success") true = true) :=
  label_depends_only_on_success "GET" "/health" none true
    (fun _ => TOutcome.ok (Json.obj [("success", Json.bool true)]))
    (fun _ => TOutcome.ok (Json.obj [("success", Json.bool true), ("status", Json.str "running")]))
    0 0 [("success", Json.bool true)] [("success", Json.bool true), ("status", Json.str "running")]
    rfl rfl rfl

/-- C2: each `test_endpoint` call prints exactly one status line: tagged
`OK` or `FAIL` when the request and JSON decode yield a dict (keyed on
`result.get("success") == expected_success`), and `ERROR` when an exception
is raised (including the `AttributeError` on a non-dict decode); never zero
lines and never more than one. -/
theorem one_status_line_per_call (m ep : String) (d : Option Json) (ex : Bool)
    (w : Nat → TOutcome) (i : Nat) :
    (runE (test_endpoint m ep d ex) w i).countP Event.isStatusLine = 1
    ∧ statusTagsOf (runE (test_endpoint m ep d ex) w i) =
      [match w i with
       | TOutcome.ok (Json.obj entries) =>
          if pyEqBool (getEntry entries "success") ex then "OK" else "FAIL"
       | TOutcome.ok _ => "ERROR"
       | TOutcome.exn _ => "ERROR"] := by
  rw [runE_test_endpoint]
  rcases h : w i with j | e
  · cases j <;> by_cases hm : m = "GET" <;>
      simp [teStep, statusTagsOf, Event.isStatusLine, Event.statusTag, hm,
        apply_ite (List.countP Event.isStatusLine),
        apply_ite (List.filterMap Event.statusTag),
        List.countP_cons, List.filterMap_cons, ite_self]
  · by_cases hm : m = "GET" <;>
      simp [teStep, statusTagsOf, Event.isStatusLine, Event.statusTag, hm,
        List.countP_cons, List.filterMap_cons, ite_self]

/-- C3: a `test_endpoint` call issues exactly one HTTP request — a GET
without a body when `method == "GET"`, otherwise a POST carrying the given
JSON body — consumes exactly one environment outcome (no retry), and when
the request or decode raises it returns `{"success": False, "error":
str(e)}` without any further request. -/
theorem single_request_no_retry (m ep : String) (d : Option Json) (ex : Bool)
    (w : Nat → TOutcome) (i : Nat) :
    (runE (test_endpoint m ep d ex) w i).filterMap Event.toCall =
      [if m == "GET" then CallItem.req "GET" ep none else CallItem.req "POST" ep d]
    ∧ runI (test_endpoint m ep d ex) w i = i + 1
    ∧ ∀ e : String, w i = TOutcome.exn e →
        runV (test_endpoint m ep d ex) w i = errDict e := by
  refine ⟨?_, rfl, ?_⟩
  · rw [runE_test_endpoint]; exact calls_teStep m ep d ex (w i)
  · intro e he
    rw [runV_test_endpoint, he]
    rfl

theorem single_request_no_retry_witness :
    (runE (test_endpoint "GET" "/word/read" none true)
        (fun _ => TOutcome.exn "timeout") 0).filterMap Event.toCall =
      [if "GET" == "GET" then CallItem.req "GET" "/word/read" none
       else CallItem.req "POST" "/word/read" none]
    ∧ runI (test_endpoint "GET" "/word/read" none true) (fun _ => TOutcome.exn "timeout") 0 = 0 + 1
    ∧ runV (test_endpoint "GET" "/word/read" none true) (fun _ => TOutcome.exn "timeout") 0 =
        errDict "timeout" :=
  ⟨(single_request_no_retry "GET" "/word/read" none true (fun _ => TOutcome.exn "timeout") 0).1,
   (single_request_no_retry "GET" "/word/read" none true (fun _ => TOutcome.exn "timeout") 0).2.1,
   (single_request_no_retry "GET" "/word/read" none true
      (fun _ => TOutcome.exn "timeout") 0).2.2 "timeout" rfl⟩

/-- C8: `test_endpoint` is total at its interface: for every input and
every environment outcome it returns a dict — never propagating an
exception — and on a raised exception that dict is
`{"success": False, "error": str(e)}`. -/
theorem test_endpoint_total (m ep : String) (d : Option Json) (ex : Bool)
    (w : Nat → TOutcome) (i : Nat) :
    (∃ entries, runV (test_endpoint m ep d ex) w i = Json.obj entries)
    ∧ ∀ e : String, w i = TOutcome.exn e →
        runV (test_endpoint m ep d ex) w i = errDict e := by
  constructor
  · rw [runV_test_endpoint]
    rcases h : w i with j | e
    · cases j <;> exact ⟨_, rfl⟩
    · exact ⟨_, rfl⟩
  · intro e he
    rw [runV_test_endpoint, he]
    rfl

theorem test_endpoint_total_witness :
    (∃ entries, runV (test_endpoint "POST" "/word/launch" none true)
        (fun _ => TOutcome.exn "connection refused") 0 = Json.obj entries)
    ∧ runV (test_endpoint "POST" "/word/launch" none true)
        (fun _ => TOutcome.exn "connection refused") 0 = errDict "connection refused" :=
  ⟨(test_endpoint_total "POST" "/word/launch" none true
      (fun _ => TOutcome.exn "connection refused") 0).1,
   (test_endpoint_total "POST" "/word/launch" none true
      (fun _ => TOutcome.exn "connection refused") 0).2 "connection refused" rfl⟩

/-- C4: for each Office application the smoke test's first three call items
are exactly the `/<app>/launch` request, a fixed 1-second sleep, and the
`/<app>/create` request, in that order and for every environment: no
request for the application precedes the launch, nothing but the fixed
sleep separates launch from the subsequent calls, and no other readiness
signal is awaited. -/
theorem launch_sleep_create_order (w : Nat → TOutcome) (i : Nat) :
    (callsR test_word_features w i).take 3 =
      [CallItem.req "POST" "/word/launch" none, CallItem.sleep 1,
       CallItem.req "POST" "/word/create" none]
    ∧ (callsR test_excel_features w i).take 3 =
      [CallItem.req "POST" "/excel/launch" none, CallItem.sleep 1,
       CallItem.req "POST" "/excel/create" none]
    ∧ (callsR test_powerpoint_features w i).take 3 =
      [CallItem.req "POST" "/powerpoint/launch" none, CallItem.sleep 1,
       CallItem.req "POST" "/powerpoint/create" none] := by
  refine ⟨?_, ?_, ?_⟩ <;>
    simp [test_word_features, test_excel_features, test_powerpoint_features,
      callsR_bind, callsR_te_get, callsR_te_post, callsR_emit, callsR_pure,
      callsR_ite, info, sleep, Event.toCall, ite_self]

/-- C5: the smoke test sends exactly the request shapes the spec names:
a `POST /word/write` whose JSON body has the key `text`, a
`POST /excel/set_formula` whose body has the keys `cell` and `formula`, and
a `POST /powerpoint/add_slide` whose body has the key `layout`, each
present in the respective feature function's request trace in every
environment. -/
theorem request_shapes_match_spec (w : Nat → TOutcome) (i : Nat) :
    CallItem.req "POST" "/word/write"
        (some (Json.obj [("text", Json.str "Hello World! This is a test document.\n\n")]))
      ∈ callsR test_word_features w i
    ∧ CallItem.req "POST" "/excel/set_formula"
        (some (Json.obj [("cell", Json.str "D2"), ("formula", Json.str "=B2*C2")]))
      ∈ callsR test_excel_features w i
    ∧ CallItem.req "POST" "/powerpoint/add_slide"
        (some (Json.obj [("layout", Json.num 1)]))
      ∈ callsR test_powerpoint_features w i := by
  refine ⟨?_, ?_, ?_⟩ <;>
    simp [test_word_features, test_excel_features, test_powerpoint_features,
      callsR_bind, callsR_te_get, callsR_te_post, callsR_emit, callsR_pure,
      callsR_ite, info, sleep, Event.toCall, ite_self]

/-- C6: when a dict response's `success` field is falsy and
`expected_success` is `True`, `test_endpoint` prints exactly one diagnostic,
carrying the response's `error` value if that key is present, otherwise its
`message` value, otherwise the literal `"Unknown"`; and when the response's
`success` equals `expected_success` no diagnostic is printed. -/
theorem diagnostic_source_fields (m ep : String) (d : Option Json) (ex : Bool)
    (w : Nat → TOutcome) (i : Nat) (entries : List (String × Json))
    (h : w i = TOutcome.ok (Json.obj entries)) :
    (pyTruthyO (getEntry entries "success") = false → ex = true →
      diagsOf (runE (test_endpoint m ep d ex) w i) =
        [getEntryD entries "error" (getEntryD entries "message" (Json.str "Unknown"))])
    ∧ (pyEqBool (getEntry entries "success") ex = true →
        diagsOf (runE (test_endpoint m ep d ex) w i) = []) := by
  have e₀ : runE (test_endpoint m ep d ex) w i =
      (teStep m ep d ex (TOutcome.ok (Json.obj entries))).2 := by
    rw [runE_test_endpoint, h]
  rw [e₀]
  constructor
  · intro hf he
    by_cases hm : m = "GET" <;>
      simp [teStep, diagsOf, Event.diagVal, List.filterMap_cons, hm, hf, he]
  · intro hq
    have hcond : (!pyTruthyO (getEntry entries "success") && ex) = false := by
      rcases hget : getEntry entries "success" with _ | v
      · rw [hget] at hq; simp [pyEqBool] at hq
      · rw [hget] at hq
        cases ex
        · simp
        · cases v <;> simp [pyEqBool] at hq <;> simp [pyTruthyO, pyTruthy, hq]
    by_cases hm : m = "GET" <;>
      simp [teStep, diagsOf, Event.diagVal, List.filterMap_cons, hm, hcond]

theorem diagnostic_source_fields_witness :
    diagsOf (runE (test_endpoint "POST" "/word/launch" none true)
        (fun _ => TOutcome.ok (Json.obj
          [("success", Json.bool false), ("error", Json.str "COM error")])) 0) =
      [getEntryD [("success", Json.bool false), ("error", Json.str "COM error")] "error"
        (getEntryD [("success", Json.bool false), ("error", Json.str "COM error")] "message"
          (Json.str "Unknown"))] :=
  (diagnostic_source_fields "POST" "/word/launch" none true
    (fun _ => TOutcome.ok (Json.obj
      [("success", Json.bool false), ("error", Json.str "COM error")])) 0
    [("success", Json.bool false), ("error", Json.str "COM error")] rfl).1 rfl rfl

/-- C9: `main` issues no Word, Excel or PowerPoint request unless the
initial `GET /health` response has a truthy `success` field: when the
health check fails, the run's whole call trace is the single `/health`
request — main prints an error and returns before any application test. -/
theorem health_gate (w : Nat → TOutcome) (i : Nat)
    (h : pyTruthyO (Json.get (teStep "GET" "/health" none true (w i)).1 "success") = false) :
    callsR main w i = [CallItem.req "GET" "/health" none] := by
  simp [main, test_health, callsR_bind, callsR_emit, callsR_te_get, callsR_pure,
    callsR_ite, info, Event.toCall, runV_bind, runV_emit, runV_test_endpoint,
    runI_bind, runI_emit, runI_test_endpoint, h]

theorem health_gate_witness :
    callsR main (fun _ => TOutcome.exn "connection refused") 0 =
      [CallItem.req "GET" "/health" none] :=
  health_gate (fun _ => TOutcome.exn "connection refused") 0 rfl

/-- C7: `build.py` never starts the PyInstaller subprocess more than once,
and on every run that reaches the build step (Windows platform, pip install
succeeded, pywin32 importable — the earlier steps exit first, as C10
states) it starts it exactly once, with the fixed argv `-m PyInstaller
--onefile --console --name office-server`, the fixed hidden-import list and
`server.py`; a non-zero subprocess exit code, or a missing
`dist/office-server.exe` afterwards, makes the script terminate with exit
status 1. -/
theorem pyinstaller_invocation (w : BuildWorld) :
    (build_main w).2.countP BEvent.isPyInstaller ≤ 1
    ∧ (w.platform = "win32" → w.pipOk = true → w.pywin32Ok = true →
        (build_main w).2.filterMap BEvent.pyArgs = [pyinstallerArgs w.pyExe]
        ∧ (w.pyinstallerCode ≠ 0 → (build_main w).1 = BResult.exit 1)
        ∧ (w.pyinstallerCode = 0 → w.exeExists = false → (build_main w).1 = BResult.exit 1)) := by
  constructor
  · by_cases hp : w.platform = "win32"
    · cases hpip : w.pipOk <;> cases hw32 : w.pywin32Ok <;>
        by_cases hc : w.pyinstallerCode = 0 <;> cases hexe : w.exeExists <;>
        simp [build_main, hp, hpip, hw32, hc, hexe, BEvent.isPyInstaller,
          List.countP_cons, List.countP_append,
          apply_ite (List.countP BEvent.isPyInstaller), ite_self]
    · have hb : (w.platform != "win32") = true := by simpa [bne_iff_ne] using hp
      simp [build_main, hb, BEvent.isPyInstaller, List.countP_cons]
  · intro hp hpip hw32
    refine ⟨?_, ?_, ?_⟩
    · by_cases hc : w.pyinstallerCode = 0 <;> cases hexe : w.exeExists <;>
        simp [build_main, hp, hpip, hw32, hc, hexe, BEvent.pyArgs,
          List.filterMap_cons, List.filterMap_append,
          apply_ite (List.filterMap BEvent.pyArgs), ite_self]
    · intro hc
      have hb : (w.pyinstallerCode != 0) = true := by simpa [bne_iff_ne] using hc
      simp [build_main, hp, hpip, hw32, hb]
    · intro hc hexe
      simp [build_main, hp, hpip, hw32, hc, hexe]

theorem pyinstaller_invocation_witness :
    (build_main ⟨"win32", "python", "3.11.0", true, true, "", false, false, 1, false, 0⟩).2.countP
        BEvent.isPyInstaller ≤ 1
    ∧ (build_main ⟨"win32", "python", "3.11.0", true, true, "", false, false, 1, false, 0⟩).2.filterMap
        BEvent.pyArgs = [pyinstallerArgs "python"]
    ∧ (build_main ⟨"win32", "python", "3.11.0", true, true, "", false, false, 1, false, 0⟩).1 =
        BResult.exit 1 :=
  ⟨(pyinstaller_invocation ⟨"win32", "python", "3.11.0", true, true, "", false, false, 1, false, 0⟩).1,
   ((pyinstaller_invocation ⟨"win32", "python", "3.11.0", true, true, "", false, false, 1, false, 0⟩).2
      rfl rfl rfl).1,
   ((pyinstaller_invocation ⟨"win32", "python", "3.11.0", true, true, "", false, false, 1, false, 0⟩).2
      rfl rfl rfl).2.1 (by decide)⟩

/-- C10: on a non-Windows platform `build.py` terminates with exit status 1
before performing any side effect: the platform check precedes every
state-changing step, so no pip subprocess is started, no directory is
removed, and PyInstaller is never invoked. -/
theorem non_windows_no_side_effects (w : BuildWorld) (h : w.platform ≠ "win32") :
    (build_main w).1 = BResult.exit 1
    ∧ (build_main w).2.countP BEvent.isSideEffect = 0 := by
  have hb : (w.platform != "win32") = true := by simpa [bne_iff_ne] using h
  simp [build_main, hb, BEvent.isSideEffect, List.countP_cons]

theorem non_windows_no_side_effects_witness :
    (build_main ⟨"linux", "python3", "3.11.0", true, true, "", true, true, 0, true, 1048576⟩).1 =
      BResult.exit 1
    ∧ (build_main ⟨"linux", "python3", "3.11.0", true, true, "", true, true, 0, true,
        1048576⟩).2.countP BEvent.isSideEffect = 0 :=
  non_windows_no_side_effects
    ⟨"linux", "python3", "3.11.0", true, true, "", true, true, 0, true, 1048576⟩ (by decide)

end OfficeServer
